import Mathlib

/-!
Shallow embedding of the flowmeter core (src/flowmeter.go): the per-flow
ring buffer of per-second aggregate buckets, its accumulate / rotate /
windowed-average operations, the ingestion step and the query step.

Modelling conventions: Go `uint` fields are `Nat`; Go `float64` is `ℚ`
(exact arithmetic standing in for floating point); the Go slice is a
`List`; Go's panicking operations (index out of range, modulo by zero)
are modelled twice: total functions that mirror the source expressions
(with Lean's benign `% 0` and out-of-range `List.set`/`getD`), and
`...Checked` variants returning `Option` that fail exactly where Go
panics.
-/

/-- Go `datapointsGroup`: one second's aggregated samples for one flow. -/
structure datapointsGroup where
  count : Nat
  sum : ℚ
deriving DecidableEq

/-- The Go zero value `datapointsGroup{}`. -/
def dpgZero : datapointsGroup := { count := 0, sum := 0 }

/-- Go `flowData`: a ring buffer. Data lives in `datapoints`, `head` is the
active index, `capacity` the array size. -/
structure flowData where
  datapoints : List datapointsGroup
  head : Nat
  capacity : Nat
deriving DecidableEq

/-- Go `advanceHead`: `head = (head + 1) % capacity`, then clear the bucket
now at `head`. -/
def advanceHead (fm : flowData) : flowData :=
  let newHead := (fm.head + 1) % fm.capacity
  { fm with head := newHead, datapoints := fm.datapoints.set newHead dpgZero }

/-- Go `addData`: `datapoints[head].count++; datapoints[head].sum += point`. -/
def addData (fm : flowData) (point : ℚ) : flowData :=
  let b := fm.datapoints.getD fm.head dpgZero
  { fm with datapoints := fm.datapoints.set fm.head { count := b.count + 1, sum := b.sum + point } }

/-- Go `NLastPoints`: clamp `n` to `capacity`, then collect the buckets at
index `(capacity + head - i) % capacity` for `i = 0 .. n-1`. -/
def NLastPoints (fm : flowData) (n : Nat) : List datapointsGroup :=
  let m := if n > fm.capacity then fm.capacity else n
  (List.range m).map (fun i => fm.datapoints.getD ((fm.capacity + fm.head - i) % fm.capacity) dpgZero)

/-- Go `MovingAverage`: fold `count` and `sum` over `NLastPoints n`; return
`sum / count`, or a plain `0` when `count == 0`. -/
def MovingAverage (fm : flowData) (n : Nat) : ℚ :=
  let points := NLastPoints fm n
  let cs := points.foldl (fun acc point => (acc.1 + point.count, acc.2 + point.sum)) ((0 : Nat), (0 : ℚ))
  if cs.1 = 0 then 0 else cs.2 / (cs.1 : ℚ)

/-- Go `initFlow`: capacity is `expire` when positive, else the configured
`config.Flows.DefaultExpire`; buckets start zeroed, head at 0. Returns the
flowData that Go stores into `flowMap[name]`. -/
def initFlow (defaultExpire : Nat) (expire : Nat) : flowData :=
  let capacity := if expire > 0 then expire else defaultExpire
  { datapoints := List.replicate capacity dpgZero, head := 0, capacity := capacity }

/-- `addData` with Go's panic surfaced: the read/write of
`datapoints[head]` panics when `head` is out of range. -/
def addDataChecked (fm : flowData) (point : ℚ) : Option flowData :=
  match fm.datapoints.get? fm.head with
  | none => none
  | some b =>
      some { fm with datapoints := fm.datapoints.set fm.head { count := b.count + 1, sum := b.sum + point } }

/-- `advanceHead` with Go's panics surfaced: `(head + 1) % capacity` panics
when `capacity == 0`, and the store `datapoints[head] = ...` panics when the
new head is out of range. -/
def advanceHeadChecked (fm : flowData) : Option flowData :=
  if fm.capacity = 0 then none
  else
    let newHead := (fm.head + 1) % fm.capacity
    if newHead < fm.datapoints.length then
      some { fm with head := newHead, datapoints := fm.datapoints.set newHead dpgZero }
    else none

/-- `NLastPoints` with Go's panics surfaced: every read `datapoints[index]`
must be in range. (When `capacity == 0` the clamped `n` is 0, the loop body
never runs, and no panic occurs — as in Go.) -/
def NLastPointsChecked (fm : flowData) (n : Nat) : Option (List datapointsGroup) :=
  let m := if n > fm.capacity then fm.capacity else n
  (List.range m).foldr
    (fun i acc =>
      (fm.datapoints.get? ((fm.capacity + fm.head - i) % fm.capacity)).bind
        (fun b => acc.map (fun r => b :: r)))
    (some [])

/-- The two fields of Go `flowsConfig` that the ingestion path reads. -/
structure flowsConfig where
  implicitCreate : Bool
  defaultExpire : Nat

/-- Outcome of one ingested sample in Go `receiveData`: stored, or dropped
after logging that the flow is unknown and implicit creation is disabled. -/
inductive ingestResult where
  | stored
  | droppedUnknown
deriving DecidableEq

/-- Go `receiveData` after payload parsing: if `flowName` is in `flowMap`,
proceed; else if `config.Flows.ImplicitCreate`, `initFlow(flowName, 0)`
(0 selects the default expire); else log and drop. Then
`flowMap[flowName].addData(value)`. -/
def receiveData (cfg : flowsConfig) (flowMap : String → Option flowData)
    (flowName : String) (value : ℚ) : (String → Option flowData) × ingestResult :=
  match flowMap flowName with
  | some fm => (fun k => if k = flowName then some (addData fm value) else flowMap k, .stored)
  | none =>
      if cfg.implicitCreate then
        let fm := initFlow cfg.defaultExpire 0
        (fun k => if k = flowName then some (addData fm value) else flowMap k, .stored)
      else (flowMap, .droppedUnknown)

/-- The two outcomes Go `httpMeter` can produce once `flow` and `window`
parsed: `Success=true` with a numeric `Average`, or the "unknown flow"
error. There is no other constructor: the code has no no-data result. -/
inductive meterResult where
  | success (average : ℚ)
  | unknownFlow
deriving DecidableEq

/-- Core of Go `httpMeter`: look the flow up in `flowMap`; if present,
report `MovingAverage(window)` with `Success=true`; otherwise report the
"unknown flow" error. -/
def httpMeter (flowMap : String → Option flowData) (flowName : String) (window : Nat) : meterResult :=
  match flowMap flowName with
  | some fm => .success (MovingAverage fm window)
  | none => .unknownFlow

/-- State-passing form of `NLastPoints`: the Go method receives `fm` by
pointer, so this embedding threads the flowData through every loop
iteration and returns it with the result, exposing any write to it. -/
def NLastPointsSt (fm : flowData) (n : Nat) : List datapointsGroup × flowData :=
  let m := if n > fm.capacity then fm.capacity else n
  (List.range m).foldl
    (fun acc i =>
      (acc.1 ++ [acc.2.datapoints.getD ((acc.2.capacity + acc.2.head - i) % acc.2.capacity) dpgZero],
       acc.2))
    ([], fm)

/-- State-passing form of `MovingAverage`. -/
def MovingAverageSt (fm : flowData) (n : Nat) : ℚ × flowData :=
  let pf := NLastPointsSt fm n
  let cs := pf.1.foldl (fun acc point => (acc.1 + point.count, acc.2 + point.sum)) ((0 : Nat), (0 : ℚ))
  (if cs.1 = 0 then 0 else cs.2 / (cs.1 : ℚ), pf.2)

/-- Flow states reachable from creation (`initFlow`, buckets zeroed) by any
sequence of `addData` and `advanceHead` calls. -/
inductive Reachable : flowData → Prop
  | create (defaultExpire expire : Nat) : Reachable (initFlow defaultExpire expire)
  | add (fm : flowData) (v : ℚ) : Reachable fm → Reachable (addData fm v)
  | advance (fm : flowData) : Reachable fm → Reachable (advanceHead fm)

/-- The per-bucket invariant of the spec's data model: an empty bucket has
a zero sum. -/
def bucketInvariant (fm : flowData) : Prop :=
  ∀ b ∈ fm.datapoints, b.count = 0 → b.sum = 0

/-- The bucket selected by the window scan at offset `i`: index
`(capacity + head - i) % capacity`. -/
def bucketAt (fm : flowData) (i : Nat) : datapointsGroup :=
  fm.datapoints.getD ((fm.capacity + fm.head - i) % fm.capacity) dpgZero

/-- Total `count` over the `m = min n capacity` window buckets. -/
def windowCount (fm : flowData) (n : Nat) : Nat :=
  ((List.range (min n fm.capacity)).map (fun i => (bucketAt fm i).count)).sum

/-- Total `sum` over the `m = min n capacity` window buckets. -/
def windowSum (fm : flowData) (n : Nat) : ℚ :=
  ((List.range (min n fm.capacity)).map (fun i => (bucketAt fm i).sum)).sum

/-- The Go loop in `MovingAverage` accumulates the two components
independently. -/
theorem foldl_count_sum (l : List datapointsGroup) (a : Nat) (b : ℚ) :
    l.foldl (fun acc point => (acc.1 + point.count, acc.2 + point.sum)) (a, b)
      = (a + (l.map datapointsGroup.count).sum, b + (l.map datapointsGroup.sum).sum) := by
  induction l generalizing a b with
  | nil => simp
  | cons x xs ih => simp [ih, add_assoc]

/-- The clamped loop bound in `NLastPoints` is `min n capacity`. -/
theorem NLastPoints_eq_map (fm : flowData) (n : Nat) :
    NLastPoints fm n = (List.range (min n fm.capacity)).map (bucketAt fm) := by
  unfold NLastPoints bucketAt
  rcases Nat.lt_or_ge fm.capacity n with h | h
  · simp [h, Nat.min_eq_right (Nat.le_of_lt h)]
  · simp [Nat.not_lt.mpr h, Nat.min_eq_left h]

/-- `MovingAverage` in terms of the window totals. -/
theorem MovingAverage_eq_window (fm : flowData) (n : Nat) :
    MovingAverage fm n
      = if windowCount fm n = 0 then 0 else windowSum fm n / (windowCount fm n : ℚ) := by
  simp only [MovingAverage, NLastPoints_eq_map, foldl_count_sum, List.map_map]
  simp [windowCount, windowSum, Function.comp_def]

/-- Reading back the index just written by `List.set`. -/
theorem getD_set_self {α : Type} (l : List α) (i : Nat) (v d : α) (h : i < l.length) :
    (l.set i v).getD i d = v := by
  induction l generalizing i with
  | nil => simp at h
  | cons x xs ih =>
    cases i with
    | zero => rfl
    | succ k =>
      simp only [List.set_cons_succ, List.getD_cons_succ]
      exact ih k (by simpa using h)

/-- Reading any other index after `List.set`. -/
theorem getD_set_other {α : Type} (l : List α) (i j : Nat) (v d : α) (h : j ≠ i) :
    (l.set i v).getD j d = l.getD j d := by
  induction l generalizing i j with
  | nil => rfl
  | cons x xs ih =>
    cases i with
    | zero =>
      cases j with
      | zero => exact absurd rfl h
      | succ m => rfl
    | succ k =>
      cases j with
      | zero => rfl
      | succ m =>
        simp only [List.set_cons_succ, List.getD_cons_succ]
        exact ih k m (fun hh => h (by simp [hh]))

/-- Claim C1: for every flow of capacity at least 1, `MovingAverage n` sums
`count` and `sum` over the `min n capacity` buckets at indices
`(capacity + head - i) % capacity`, `i = 0 .. m-1`, and returns
`totalSum / totalCount` whenever `totalCount > 0`. -/
theorem MovingAverage_window_spec (fm : flowData) (n : Nat)
    (_hcap : 1 ≤ fm.capacity) (hpos : 0 < windowCount fm n) :
    MovingAverage fm n = windowSum fm n / (windowCount fm n : ℚ) := by
  rw [MovingAverage_eq_window, if_neg (by omega)]

/-- Witness for C1 at a concrete flow: capacity 1, one bucket holding two
samples totalling 30; the window average over 1 second is 30 / 2. -/
theorem MovingAverage_window_spec_witness :
    1 ≤ (flowData.mk [⟨2, 30⟩] 0 1).capacity ∧
    0 < windowCount (flowData.mk [⟨2, 30⟩] 0 1) 1 ∧
    MovingAverage (flowData.mk [⟨2, 30⟩] 0 1) 1
      = windowSum (flowData.mk [⟨2, 30⟩] 0 1) 1 / (windowCount (flowData.mk [⟨2, 30⟩] 0 1) 1 : ℚ) :=
  ⟨by decide, by decide, MovingAverage_window_spec _ 1 (by decide) (by decide)⟩

/-- Claim C3: one `advanceHead` call sets `head` to `(head + 1) % capacity`,
resets exactly the bucket at the new head to `{count: 0, sum: 0}`, and
leaves every other bucket (and the capacity) unchanged. -/
theorem advanceHead_spec (fm : flowData)
    (hcap : 1 ≤ fm.capacity) (hlen : fm.datapoints.length = fm.capacity) :
    (advanceHead fm).head = (fm.head + 1) % fm.capacity ∧
    (advanceHead fm).capacity = fm.capacity ∧
    (advanceHead fm).datapoints.getD ((fm.head + 1) % fm.capacity) dpgZero = dpgZero ∧
    ∀ j, j < fm.capacity → j ≠ (fm.head + 1) % fm.capacity →
      (advanceHead fm).datapoints.getD j dpgZero = fm.datapoints.getD j dpgZero := by
  refine ⟨rfl, rfl, ?_, ?_⟩
  · apply getD_set_self
    rw [hlen]
    exact Nat.mod_lt _ (by omega)
  · intro j hj hne
    exact getD_set_other _ _ _ _ _ hne

/-- Witness for C3 on a concrete two-bucket flow with head 0: the new head
is 1, bucket 1 is reset, bucket 0 keeps its value. -/
theorem advanceHead_spec_witness :
    1 ≤ (flowData.mk [⟨1, 5⟩, ⟨2, 8⟩] 0 2).capacity ∧
    (flowData.mk [⟨1, 5⟩, ⟨2, 8⟩] 0 2).datapoints.length = (flowData.mk [⟨1, 5⟩, ⟨2, 8⟩] 0 2).capacity ∧
    (advanceHead (flowData.mk [⟨1, 5⟩, ⟨2, 8⟩] 0 2)).head = 1 ∧
    (advanceHead (flowData.mk [⟨1, 5⟩, ⟨2, 8⟩] 0 2)).datapoints.getD 1 dpgZero = dpgZero ∧
    (advanceHead (flowData.mk [⟨1, 5⟩, ⟨2, 8⟩] 0 2)).datapoints.getD 0 dpgZero
      = (flowData.mk [⟨1, 5⟩, ⟨2, 8⟩] 0 2).datapoints.getD 0 dpgZero :=
  ⟨by decide, by decide,
   (advanceHead_spec _ (by decide) (by decide)).1,
   (advanceHead_spec _ (by decide) (by decide)).2.2.1,
   (advanceHead_spec _ (by decide) (by decide)).2.2.2 0 (by decide) (by decide)⟩

/-- The clamp in `NLastPoints` makes every window of at least `capacity`
seconds scan the same buckets as the full ring. -/
theorem NLastPoints_saturates (fm : flowData) (n : Nat) (hn : fm.capacity ≤ n) :
    NLastPoints fm n = NLastPoints fm fm.capacity := by
  unfold NLastPoints
  rcases Nat.eq_or_lt_of_le hn with h | h
  · rw [h]
  · simp [h, Nat.lt_irrefl]

/-- Claim C4: for every flow of capacity at least 1 and every
`n ≥ capacity`, `MovingAverage n = MovingAverage capacity`: the window
saturates at the ring's full depth. -/
theorem MovingAverage_saturates (fm : flowData) (n : Nat)
    (_hcap : 1 ≤ fm.capacity) (hn : fm.capacity ≤ n) :
    MovingAverage fm n = MovingAverage fm fm.capacity := by
  unfold MovingAverage
  rw [NLastPoints_saturates fm n hn]

/-- Witness for C4 on a concrete one-bucket flow queried with window 5. -/
theorem MovingAverage_saturates_witness :
    1 ≤ (flowData.mk [⟨1, 4⟩] 0 1).capacity ∧ (flowData.mk [⟨1, 4⟩] 0 1).capacity ≤ 5 ∧
    MovingAverage (flowData.mk [⟨1, 4⟩] 0 1) 5 = MovingAverage (flowData.mk [⟨1, 4⟩] 0 1) 1 :=
  ⟨by decide, by decide, MovingAverage_saturates _ 5 (by decide) (by decide)⟩

/-- Claim C7: the bucket invariant `count = 0 → sum = 0` holds for every
bucket of every flow state reachable from creation (buckets zeroed) by any
sequence of `addData` and `advanceHead` calls. -/
theorem bucketInvariant_reachable (fm : flowData) (hr : Reachable fm) :
    bucketInvariant fm := by
  induction hr with
  | create d e =>
    intro b hb
    have hbz : b = dpgZero := List.eq_of_mem_replicate (by simpa [initFlow] using hb)
    intro _
    simp [hbz, dpgZero]
  | add fm v hr ih =>
    intro b hb
    simp only [addData] at hb
    rcases List.mem_or_eq_of_mem_set hb with h | h
    · exact ih b h
    · rw [h]
      intro hc
      exact absurd hc (Nat.succ_ne_zero _)
  | advance fm hr ih =>
    intro b hb
    simp only [advanceHead] at hb
    rcases List.mem_or_eq_of_mem_set hb with h | h
    · exact ih b h
    · intro _
      simp [h, dpgZero]

/-- Witness for C7 at a concrete reachable state: create a flow with the
default expire 2, rotate once, add one sample of 5. -/
theorem bucketInvariant_reachable_witness :
    bucketInvariant (addData (advanceHead (initFlow 2 0)) 5) :=
  bucketInvariant_reachable _
    (Reachable.add _ 5 (Reachable.advance _ (Reachable.create 2 0)))

/-- The scan loop only appends to its first component and leaves the
threaded flow untouched. -/
theorem foldl_scan_pair (l : List Nat) (a : List datapointsGroup) (fm : flowData) :
    l.foldl (fun acc i =>
      (acc.1 ++ [acc.2.datapoints.getD ((acc.2.capacity + acc.2.head - i) % acc.2.capacity) dpgZero],
       acc.2)) (a, fm)
      = (a ++ l.map (fun i => fm.datapoints.getD ((fm.capacity + fm.head - i) % fm.capacity) dpgZero),
         fm) := by
  induction l generalizing a with
  | nil => simp
  | cons x xs ih =>
    simp only [List.foldl_cons, List.map_cons]
    rw [ih]
    simp

/-- The state-passing window scan returns its flow unchanged together with
exactly the buckets `NLastPoints` collects. -/
theorem NLastPointsSt_eq (fm : flowData) (n : Nat) :
    NLastPointsSt fm n = (NLastPoints fm n, fm) := by
  unfold NLastPointsSt NLastPoints
  simp only [foldl_scan_pair]
  simp

/-- Claim C10: the query scan is read-only — the state-passing forms of
`MovingAverage` and `NLastPoints` return the flow (buckets, head and
capacity) exactly as given, along with the value the pure forms compute. -/
theorem MovingAverage_readonly (fm : flowData) (n : Nat) :
    MovingAverageSt fm n = (MovingAverage fm n, fm) ∧
    NLastPointsSt fm n = (NLastPoints fm n, fm) := by
  refine ⟨?_, NLastPointsSt_eq fm n⟩
  unfold MovingAverageSt MovingAverage
  rw [NLastPointsSt_eq]

/-- The collecting fold of `NLastPointsChecked` succeeds when every index
read succeeds. -/
theorem foldr_collect_isSome (f : Nat → Option datapointsGroup) (l : List Nat)
    (h : ∀ i ∈ l, (f i).isSome) :
    (l.foldr (fun i acc => (f i).bind (fun b => acc.map (fun r => b :: r))) (some [])).isSome := by
  induction l with
  | nil => rfl
  | cons x xs ih =>
    have hx := h x (List.mem_cons_self x xs)
    have hxs := ih (fun i hi => h i (List.mem_cons_of_mem _ hi))
    simp only [List.foldr_cons]
    rcases Option.isSome_iff_exists.mp hx with ⟨b, hb⟩
    rcases Option.isSome_iff_exists.mp hxs with ⟨r, hr⟩
    rw [hb, hr]
    rfl

/-- Claim C9: under the spec's Flow invariant (capacity ≥ 1, bucket list of
length capacity, head < capacity) every bucket index computed by `addData`,
`advanceHead` and `NLastPoints` is in range and no modulo divides by zero
(the panic-checked operations succeed); and the precondition is necessary:
`initFlow` with expire 0 while the configured default expire is 0 builds a
capacity-0 flow with no buckets, on which `addData` and `advanceHead`
fault. -/
theorem index_safety (fm : flowData) (p : ℚ) (n : Nat)
    (hcap : 1 ≤ fm.capacity) (hlen : fm.datapoints.length = fm.capacity)
    (hhead : fm.head < fm.capacity) :
    ((addDataChecked fm p).isSome ∧ (advanceHeadChecked fm).isSome ∧
     (NLastPointsChecked fm n).isSome) ∧
    ((initFlow 0 0).capacity = 0 ∧ (initFlow 0 0).datapoints = [] ∧
     addDataChecked (initFlow 0 0) p = none ∧
     advanceHeadChecked (initFlow 0 0) = none) := by
  refine ⟨⟨?_, ?_, ?_⟩, rfl, rfl, rfl, rfl⟩
  · have hlt : fm.head < fm.datapoints.length := by omega
    simp only [addDataChecked, List.get?_eq_get hlt]
    rfl
  · have h0 : ¬ fm.capacity = 0 := by omega
    have hlt : (fm.head + 1) % fm.capacity < fm.datapoints.length := by
      rw [hlen]
      exact Nat.mod_lt _ (by omega)
    simp [advanceHeadChecked, h0, hlt]
  · unfold NLastPointsChecked
    apply foldr_collect_isSome
    intro i hi
    have hlt : (fm.capacity + fm.head - i) % fm.capacity < fm.datapoints.length := by
      rw [hlen]
      exact Nat.mod_lt _ (by omega)
    rw [List.get?_eq_get hlt]
    rfl

/-- Witness for C9 on a concrete one-bucket flow (the necessity half about
the capacity-0 flow is hypothesis-free). -/
theorem index_safety_witness :
    1 ≤ (flowData.mk [dpgZero] 0 1).capacity ∧
    (flowData.mk [dpgZero] 0 1).datapoints.length = (flowData.mk [dpgZero] 0 1).capacity ∧
    (flowData.mk [dpgZero] 0 1).head < (flowData.mk [dpgZero] 0 1).capacity ∧
    (((addDataChecked (flowData.mk [dpgZero] 0 1) 3).isSome ∧
      (advanceHeadChecked (flowData.mk [dpgZero] 0 1)).isSome ∧
      (NLastPointsChecked (flowData.mk [dpgZero] 0 1) 1).isSome) ∧
     ((initFlow 0 0).capacity = 0 ∧ (initFlow 0 0).datapoints = [] ∧
      addDataChecked (initFlow 0 0) 3 = none ∧
      advanceHeadChecked (initFlow 0 0) = none)) :=
  ⟨by decide, by decide, by decide,
   index_safety (flowData.mk [dpgZero] 0 1) 3 1 (by decide) (by decide) (by decide)⟩

/-- Claim C6: an ingested sample naming a flow absent from the registry is
dropped with the drop reported and the map unchanged when implicit creation
is disabled; with implicit creation enabled, a fresh flow of capacity
`defaultExpire` is created and stored under the name with the sample
accumulated into it, and no other entry changes. -/
theorem receiveData_unknown (cfg : flowsConfig) (m : String → Option flowData)
    (name : String) (v : ℚ) (habs : m name = none) :
    (cfg.implicitCreate = false →
      receiveData cfg m name v = (m, ingestResult.droppedUnknown)) ∧
    (cfg.implicitCreate = true →
      (receiveData cfg m name v).2 = ingestResult.stored ∧
      (receiveData cfg m name v).1 name = some (addData (initFlow cfg.defaultExpire 0) v) ∧
      (initFlow cfg.defaultExpire 0).capacity = cfg.defaultExpire ∧
      ∀ k, k ≠ name → (receiveData cfg m name v).1 k = m k) := by
  constructor
  · intro hic
    simp [receiveData, habs, hic]
  · intro hic
    refine ⟨?_, ?_, rfl, ?_⟩
    · simp [receiveData, habs, hic]
    · simp [receiveData, habs, hic]
    · intro k hk
      simp [receiveData, habs, hic, hk]

/-- Witness for C6: empty registry, implicit creation disabled — the sample
for "x" is dropped and the registry is returned unchanged. -/
theorem receiveData_unknown_witness :
    ((fun _ : String => (none : Option flowData)) "x" = none) ∧
    receiveData (flowsConfig.mk false 5) (fun _ => none) "x" 1
      = ((fun _ => none), ingestResult.droppedUnknown) :=
  ⟨rfl, (receiveData_unknown (flowsConfig.mk false 5) (fun _ => none) "x" 1 rfl).1 rfl⟩

/-- Claim C2, evaluated at the failing input: on a registered flow whose
scanned window holds zero samples, `MovingAverage` returns the plain
numeric 0 and `httpMeter` answers with `Success = true` and `Average = 0` —
`meterResult` has no no-data constructor at all — while only a missing name
gets the distinct unknown-flow error. -/
theorem emptyWindow_success_zero :
    MovingAverage (flowData.mk [dpgZero] 0 1) 1 = 0 ∧
    httpMeter (fun k => if k = "e" then some (flowData.mk [dpgZero] 0 1) else none) "e" 1
      = meterResult.success 0 ∧
    httpMeter (fun k => if k = "e" then some (flowData.mk [dpgZero] 0 1) else none) "g" 1
      = meterResult.unknownFlow := by
  refine ⟨by decide, ?_, ?_⟩ <;> decide

/-- Claim C5, evaluated at the failing input: after capacity + 1 = 3
advances of a capacity-2 flow with no intervening samples, every bucket is
zeroed and the scanned window count is 0, yet the code answers the query
with a successful numeric 0 instead of a distinguished no-data result. -/
theorem advance_flush_success_zero :
    (advanceHead (advanceHead (advanceHead (flowData.mk [⟨2, 30⟩, ⟨1, 7⟩] 0 2)))).datapoints
      = [dpgZero, dpgZero] ∧
    windowCount (advanceHead (advanceHead (advanceHead (flowData.mk [⟨2, 30⟩, ⟨1, 7⟩] 0 2)))) 2
      = 0 ∧
    httpMeter
      (fun k =>
        if k = "f" then
          some (advanceHead (advanceHead (advanceHead (flowData.mk [⟨2, 30⟩, ⟨1, 7⟩] 0 2))))
        else none)
      "f" 2 = meterResult.success 0 := by
  decide
